import Mathlib

/-!
Verification of the device-association orchestration flow of the Greengrass
device service (`DevicesService` in `devices.service.ts`).

The service's two orchestration entry points, `createDeviceAssociationTask`
and `associateDevicesWithGroup`, are embedded as pure functions over an
explicit environment of external collaborators (group store, template store,
task store, queue, Greengrass control-plane client, and the handler chain).
Every external interaction performed by the code is recorded, in program
order, as an event in a trace, so that ordering and counting claims about
side effects become statements about the returned trace.

The individual handler classes of the chain (`GetThingHandler`,
`SaveGroupHandler`, ...) are not part of the analysed source; only the
orchestrator that assembles and drives the chain is.  The chain is therefore
modelled from the spec: an ordered list of handler behaviours threaded over
the shared `DeviceAssociationModel` context, each of which either passes the
(possibly mutated) context to the next handler, stops propagation while
still invoking the terminal `SaveGroup` step, or throws; the terminal
`SaveGroup` step itself may succeed or throw.
-/

/-- Task / device status values used by the service
(`'Waiting' | 'InProgress' | 'Success' | 'Failure'`). -/
inductive Status
  | Waiting
  | InProgress
  | Success
  | Failure
deriving DecidableEq, Repr

/-- A device entry of a task (`DeviceItem` of `devices.models`): `thingName`,
`type`, `provisioningTemplate`, a per-device `status` and an optional
`statusMessage`. -/
structure DeviceItem where
  thingName : String
  type : String
  provisioningTemplate : String
  status : Status
  statusMessage : Option String
deriving DecidableEq, Repr

/-- A device-association task (`DeviceTaskSummary`): the task id, the target
group name, the task-level status, creation/update timestamps (modelled as
naturals) and the ordered device list.  `Date` values are modelled as `Nat`. -/
structure DeviceTaskSummary where
  taskId : String
  groupName : String
  status : Status
  createdAt : Nat
  updatedAt : Nat
  devices : List DeviceItem
deriving DecidableEq, Repr

/-- A group record (`GroupItem` of `groups.models`): id, name, the
configuration template reference, and the transient task outcome fields
(`taskStatus` starts out unset, hence `Option`). -/
structure GroupItem where
  id : String
  name : String
  templateName : String
  templateVersionNo : Nat
  taskStatus : Option Status
  statusMessage : Option String
deriving DecidableEq, Repr

/-- The Greengrass group info returned by `ggUtils.getGroupInfo`; only the
fields the orchestrator reads (`Id`, `LatestVersion`) are modelled. -/
structure GGGroupInfo where
  Id : String
  LatestVersion : String
deriving DecidableEq, Repr

/-- The Greengrass group-version info returned by
`ggUtils.getGroupVersionInfo`; only the definition-version ARNs the
orchestrator reads are modelled. -/
structure GGGroupVersionInfo where
  CoreDefinitionVersionArn : String
  DeviceDefinitionVersionArn : String
deriving DecidableEq, Repr

/-- A configuration template (`TemplateItem` of `templates.models`): name and
version number. -/
structure TemplateItem where
  name : String
  versionNo : Nat
deriving DecidableEq, Repr

/-- The shared mutable context threaded through the handler chain
(`DeviceAssociationModel` of `handlers/models`).  The core and device
definition-version infos are opaque to the orchestrator and modelled as
strings. -/
structure DeviceAssociationModel where
  taskInfo : DeviceTaskSummary
  group : GroupItem
  ggGroup : GGGroupInfo
  ggGroupVersion : GGGroupVersionInfo
  ggCoreVersion : String
  ggDeviceVersion : String
  template : TemplateItem
deriving DecidableEq, Repr

/-- Errors surfaced by the service: `ow` argument-validation failures are
distinguished from every other thrown error (store / control-plane / chain
errors, `new Error('NOT_FOUND')`, ...). -/
inductive Err
  | validation (msg : String)
  | error (msg : String)
deriving DecidableEq, Repr

/-- The `message` property of a thrown error (`err.message`). -/
def Err.message : Err → String
  | .validation m => m
  | .error m => m

/-- One external interaction performed by the service, recorded in program
order: store reads/writes, control-plane calls, the queue publish, the entry
into the handler chain, and each invocation of the terminal `SaveGroup`
handler's `handle`. -/
inductive Evt
  | groupsGet (name : String)
  | ggGetGroupInfo (id : String)
  | ggGetGroupVersionInfo (groupId : String) (versionId : String)
  | ggGetCoreInfo (arn : String)
  | ggGetDeviceInfo (arn : String)
  | templatesGet (name : String) (versionNo : Nat)
  | saveTask (t : DeviceTaskSummary)
  | sendMessage (queueUrl : String) (body : DeviceTaskSummary) (messageType : String)
  | getTask (groupId : String) (taskId : String)
  | chainInvoked (r : DeviceAssociationModel)
  | saveGroupInvoked (r : DeviceAssociationModel)
deriving DecidableEq, Repr

/-- Modelled from the spec: the outcome of one handler's `handle(request)`.
The handler classes are not part of the analysed source; per the spec's
handler contract a handler either calls `next.handle` with the (possibly
mutated) request, stops propagation while still invoking `SaveGroup`, or
throws. -/
inductive HandlerOutcome
  | next (r : DeviceAssociationModel)
  | halt (r : DeviceAssociationModel)
  | raise (msg : String) (r : DeviceAssociationModel)
deriving Repr

/-- The request state a handler outcome leaves behind. -/
def HandlerOutcome.request : HandlerOutcome → DeviceAssociationModel
  | .next r => r
  | .halt r => r
  | .raise _ r => r

/-- The external collaborators of `DevicesService`, supplied by dependency
injection in the source: the group / template / task stores, the queue, the
Greengrass control-plane client (`ggUtils`), the id generator and the clock,
together with the spec-modelled behaviour of the non-terminal handlers of the
chain (`handlers`, in chain order) and of the terminal `SaveGroup` handler
(`saveGroup`). -/
structure Env where
  groupsGet : String → Except Err (Option GroupItem)
  ggGetGroupInfo : String → Except Err GGGroupInfo
  ggGetGroupVersionInfo : String → String → Except Err GGGroupVersionInfo
  ggGetCoreInfo : String → Except Err String
  ggGetDeviceInfo : String → Except Err String
  templatesGet : String → Nat → Except Err (Option TemplateItem)
  saveTaskResult : DeviceTaskSummary → Except Err Unit
  sendMessageResult : Except Err Unit
  getTask : String → String → Except Err DeviceTaskSummary
  freshTaskId : String
  now : Nat
  queueUrl : String
  handlers : List (DeviceAssociationModel → HandlerOutcome)
  saveGroup : DeviceAssociationModel → Except Err Unit

/-- The per-device `ow` checks of `createDeviceAssociationTask`: each device
must have a non-empty `thingName`, `type` and `provisioningTemplate`. -/
def checkDeviceFields : List DeviceItem → Option Err
  | [] => none
  | d :: rest =>
    if d.thingName = "" then some (.validation "thingName")
    else if d.type = "" then some (.validation "type")
    else if d.provisioningTemplate = "" then some (.validation "provisioningTemplate")
    else checkDeviceFields rest

/-- The `ow` input validation of `createDeviceAssociationTask`: non-empty
`groupName`, non-empty `items` array, then the per-device field checks. -/
def createValidate (groupName : String) (items : List DeviceItem) : Option Err :=
  if groupName = "" then some (.validation "groupName")
  else if items.length < 1 then some (.validation "Devices")
  else checkDeviceFields items

/-- The `DeviceTaskSummary` built by `createDeviceAssociationTask`: a fresh
`taskId`, `status = 'Waiting'`, both timestamps set to now, and each input
item shallow-copied (`{...d, status:'Waiting'}`) with its status overwritten
to `'Waiting'`. -/
def mkTaskInfo (env : Env) (groupName : String) (items : List DeviceItem) :
    DeviceTaskSummary :=
  { taskId := env.freshTaskId
    groupName := groupName
    status := .Waiting
    createdAt := env.now
    updatedAt := env.now
    devices := items.map (fun d => { d with status := .Waiting }) }

/-- `DevicesService.createDeviceAssociationTask(groupName, items)`:
validates the input, resolves the group (private `getGroupItem`, which throws
`NOT_FOUND` when the store returns `undefined`), confirms the group with the
control plane, builds the task, persists it, then publishes it to the queue.
Returns the result together with the trace of external interactions in
program order. -/
def createDeviceAssociationTask (env : Env) (groupName : String)
    (items : List DeviceItem) : Except Err DeviceTaskSummary × List Evt :=
  match createValidate groupName items with
  | some e => (.error e, [])
  | none =>
    match env.groupsGet groupName with
    | .error e => (.error e, [.groupsGet groupName])
    | .ok none => (.error (.error "NOT_FOUND"), [.groupsGet groupName])
    | .ok (some groupItem) =>
      match env.ggGetGroupInfo groupItem.id with
      | .error e =>
        (.error e, [.groupsGet groupName, .ggGetGroupInfo groupItem.id])
      | .ok _ =>
        let taskInfo := mkTaskInfo env groupName items
        match env.saveTaskResult taskInfo with
        | .error e =>
          (.error e,
            [.groupsGet groupName, .ggGetGroupInfo groupItem.id,
             .saveTask taskInfo])
        | .ok _ =>
          match env.sendMessageResult with
          | .error e =>
            (.error e,
              [.groupsGet groupName, .ggGetGroupInfo groupItem.id,
               .saveTask taskInfo,
               .sendMessage env.queueUrl taskInfo "DeviceTaskSummary"])
          | .ok _ =>
            (.ok taskInfo,
              [.groupsGet groupName, .ggGetGroupInfo groupItem.id,
               .saveTask taskInfo,
               .sendMessage env.queueUrl taskInfo "DeviceTaskSummary"])

/-- The `ow` input validation of `associateDevicesWithGroup`: non-empty
`taskId`, non-empty `groupName`, `devices` of length at least 1 (the
`ow.object.nonEmpty` check on `taskInfo` itself is vacuous for a record and
not modelled). -/
def associateValidate (t : DeviceTaskSummary) : Option Err :=
  if t.taskId = "" then some (.validation "taskId")
  else if t.groupName = "" then some (.validation "groupName")
  else if t.devices.length < 1 then some (.validation "Devices")
  else none

/-- Marking done by `associateDevicesWithGroup` just before the chain runs:
`taskInfo.status = 'InProgress'` and every device's status `'InProgress'`. -/
def markInProgress (t : DeviceTaskSummary) : DeviceTaskSummary :=
  { t with
    status := .InProgress
    devices := t.devices.map (fun d => { d with status := .InProgress }) }

/-- The `DeviceAssociationModel` request that `associateDevicesWithGroup`
hands to the first handler of the chain. -/
def mkRequest (t : DeviceTaskSummary) (g : GroupItem) (gg : GGGroupInfo)
    (ggv : GGGroupVersionInfo) (core dev : String) (tmpl : TemplateItem) :
    DeviceAssociationModel :=
  { taskInfo := markInProgress t
    group := g
    ggGroup := gg
    ggGroupVersion := ggv
    ggCoreVersion := core
    ggDeviceVersion := dev
    template := tmpl }

/-- Modelled from the spec: execution of the handler chain assembled in the
`DevicesService` constructor (seven non-terminal handlers followed by
`SaveGroupHandler`), driven from `getThingHandler1.handle(request)`.  Each
non-terminal handler either continues, stops propagation while still
invoking `SaveGroup`, or throws; falling off the end of the non-terminal
handlers invokes `SaveGroup`.  An error result carries the thrown error's
message together with the request state at the throw; the trace records each
invocation of `SaveGroup`'s `handle`. -/
def runChain (sg : DeviceAssociationModel → Except Err Unit) :
    List (DeviceAssociationModel → HandlerOutcome) → DeviceAssociationModel →
    Except (String × DeviceAssociationModel) DeviceAssociationModel × List Evt
  | [], r =>
    match sg r with
    | .ok _ => (.ok r, [.saveGroupInvoked r])
    | .error e => (.error (e.message, r), [.saveGroupInvoked r])
  | h :: hs, r =>
    match h r with
    | .next r' => runChain sg hs r'
    | .halt r' =>
      match sg r' with
      | .ok _ => (.ok r', [.saveGroupInvoked r'])
      | .error e => (.error (e.message, r'), [.saveGroupInvoked r'])
    | .raise m r' => (.error (m, r'), [])

/-- The catch block of `associateDevicesWithGroup`: when the chain throws, the
group's `taskStatus` is forced to `'Failure'` with the error's message —
unless a failure is already recorded, in which case the group is left
untouched (first failure wins). -/
def catchGroupUpdate (m : String) (g : GroupItem) : GroupItem :=
  if g.taskStatus = some Status.Failure then g
  else { g with taskStatus := some Status.Failure, statusMessage := some m }

/-- The try/catch around the chain in `associateDevicesWithGroup`: run the
chain; on a throw, apply the first-failure-wins update and invoke
`saveGroupHandler.handle(request)` without awaiting it — its outcome is
discarded, so the method returns normally either way. -/
def runAssociationChain (env : Env) (request : DeviceAssociationModel) :
    Except Err Unit × List Evt :=
  match runChain env.saveGroup env.handlers request with
  | (.ok _, ctr) => (.ok (), .chainInvoked request :: ctr)
  | (.error (m, r'), ctr) =>
    (.ok (),
      .chainInvoked request ::
        (ctr ++ [.saveGroupInvoked { r' with group := catchGroupUpdate m r'.group }]))

/-- The six control-plane / store lookup events of `associateDevicesWithGroup`
once the `Promise.all` stage has been reached: group resolution, group info,
group-version info, and the three concurrently started lookups (core info,
device info, template). -/
def lookupTrace (t : DeviceTaskSummary) (g : GroupItem) (gg : GGGroupInfo)
    (ggv : GGGroupVersionInfo) : List Evt :=
  [.groupsGet t.groupName, .ggGetGroupInfo g.id,
   .ggGetGroupVersionInfo gg.Id gg.LatestVersion,
   .ggGetCoreInfo ggv.CoreDefinitionVersionArn,
   .ggGetDeviceInfo ggv.DeviceDefinitionVersionArn,
   .templatesGet g.templateName g.templateVersionNo]

/-- The private `getTemplateItem` of `DevicesService`: a template-store read
that throws `NOT_FOUND` when the store returns `undefined`. -/
def getTemplateItem (env : Env) (name : String) (versionNo : Nat) :
    Except Err TemplateItem :=
  match env.templatesGet name versionNo with
  | .error e => .error e
  | .ok none => .error (.error "NOT_FOUND")
  | .ok (some t) => .ok t

/-- `DevicesService.associateDevicesWithGroup(taskInfo)`: validates the
message, re-resolves the group, fetches the Greengrass group info, then its
latest group-version info, then starts the core-info, device-info and
template lookups together (`Promise.all` — all three calls are recorded once
this stage is reached; on several rejections the model reports the first in
core, device, template order), marks the task and all devices `InProgress`,
and drives the handler chain under the try/catch.  Returns the result and
the full interaction trace. -/
def associateDevicesWithGroup (env : Env) (taskInfo : DeviceTaskSummary) :
    Except Err Unit × List Evt :=
  match associateValidate taskInfo with
  | some e => (.error e, [])
  | none =>
    match env.groupsGet taskInfo.groupName with
    | .error e => (.error e, [.groupsGet taskInfo.groupName])
    | .ok none => (.error (.error "NOT_FOUND"), [.groupsGet taskInfo.groupName])
    | .ok (some group) =>
      match env.ggGetGroupInfo group.id with
      | .error e =>
        (.error e, [.groupsGet taskInfo.groupName, .ggGetGroupInfo group.id])
      | .ok ggGroup =>
        match env.ggGetGroupVersionInfo ggGroup.Id ggGroup.LatestVersion with
        | .error e =>
          (.error e,
            [.groupsGet taskInfo.groupName, .ggGetGroupInfo group.id,
             .ggGetGroupVersionInfo ggGroup.Id ggGroup.LatestVersion])
        | .ok ggGroupVersion =>
          match env.ggGetCoreInfo ggGroupVersion.CoreDefinitionVersionArn,
                env.ggGetDeviceInfo ggGroupVersion.DeviceDefinitionVersionArn,
                getTemplateItem env group.templateName group.templateVersionNo with
          | .error e, _, _ =>
            (.error e, lookupTrace taskInfo group ggGroup ggGroupVersion)
          | .ok _, .error e, _ =>
            (.error e, lookupTrace taskInfo group ggGroup ggGroupVersion)
          | .ok _, .ok _, .error e =>
            (.error e, lookupTrace taskInfo group ggGroup ggGroupVersion)
          | .ok ggCoreVersion, .ok ggDeviceVersion, .ok template =>
            let out := runAssociationChain env
              (mkRequest taskInfo group ggGroup ggGroupVersion
                ggCoreVersion ggDeviceVersion template)
            (out.1, lookupTrace taskInfo group ggGroup ggGroupVersion ++ out.2)

/-- `DevicesService.getDeviceAssociationTask(groupId, taskId)`: the only
validation is `ow(taskId, ow.string.nonEmpty)`; the arguments are then
forwarded unchanged to `devicesDao.getDeviceAssociationTask`. -/
def getDeviceAssociationTask (env : Env) (groupId taskId : String) :
    Except Err DeviceTaskSummary × List Evt :=
  if taskId = "" then (.error (.validation "taskId"), [])
  else (env.getTask groupId taskId, [.getTask groupId taskId])

/-- Number of invocations of the terminal `SaveGroup` handler recorded in a
trace. -/
def countSaves (tr : List Evt) : Nat :=
  (tr.filter (fun e =>
    match e with
    | .saveGroupInvoked _ => true
    | _ => false)).length

/-- Whether an event is the store write of a task. -/
def isSaveTask : Evt → Bool
  | .saveTask _ => true
  | _ => false

/-- Whether an event is a queue publish. -/
def isSend : Evt → Bool
  | .sendMessage _ _ _ => true
  | _ => false

/-- A concrete device used as a test fixture. -/
def deviceA : DeviceItem :=
  { thingName := "t1", type := "core", provisioningTemplate := "tmpl-a",
    status := Status.Waiting, statusMessage := none }

/-- A concrete group fixture. -/
def groupA : GroupItem :=
  { id := "gg-group-id", name := "group-1", templateName := "tmpl-a",
    templateVersionNo := 1, taskStatus := none, statusMessage := none }

/-- A concrete Greengrass group-info fixture. -/
def ggA : GGGroupInfo := { Id := "gg-id", LatestVersion := "v1" }

/-- A concrete Greengrass group-version-info fixture. -/
def ggvA : GGGroupVersionInfo :=
  { CoreDefinitionVersionArn := "core-arn-a", DeviceDefinitionVersionArn := "dev-arn-a" }

/-- A concrete template fixture. -/
def tmplA : TemplateItem := { name := "tmpl-a", versionNo := 1 }

/-- A concrete task fixture. -/
def taskA : DeviceTaskSummary :=
  { taskId := "task-1", groupName := "group-1", status := Status.Waiting,
    createdAt := 42, updatedAt := 42, devices := [deviceA] }

/-- A concrete environment fixture in which every collaborator succeeds and
the chain consists of a single pass-through handler. -/
def baseEnv : Env :=
  { groupsGet := fun _ => .ok (some groupA)
    ggGetGroupInfo := fun _ => .ok ggA
    ggGetGroupVersionInfo := fun _ _ => .ok ggvA
    ggGetCoreInfo := fun arn => .ok arn
    ggGetDeviceInfo := fun arn => .ok arn
    templatesGet := fun _ _ => .ok (some tmplA)
    saveTaskResult := fun _ => .ok ()
    sendMessageResult := .ok ()
    getTask := fun _ _ => .ok taskA
    freshTaskId := "task-1"
    now := 42
    queueUrl := "queue-url"
    handlers := [fun r => HandlerOutcome.next r]
    saveGroup := fun _ => .ok () }

/-- Modelled from the spec: a handler may mutate the request but never resets
the task-level status back to `'Waiting'` — per the handler contract a
handler only records `'InProgress'` or terminal outcomes. -/
def HandlerPreservesNotWaiting (h : DeviceAssociationModel → HandlerOutcome) : Prop :=
  ∀ r, r.taskInfo.status ≠ Status.Waiting →
    (h r).request.taskInfo.status ≠ Status.Waiting

/-- The request handed to the chain when the fixture environments run on
`taskA`. -/
def reqA : DeviceAssociationModel :=
  mkRequest taskA groupA ggA ggvA "core-arn-a" "dev-arn-a" tmplA

/-- A fixture environment whose chain is seven pass-through non-terminal
handlers (mirroring the source's chain length) and whose terminal
`SaveGroup` handler throws. -/
def sgFailEnv : Env :=
  { baseEnv with
    handlers := List.replicate 7 (fun r => HandlerOutcome.next r)
    saveGroup := fun _ => .error (.error "save-group failed") }

/-- A fixture environment whose handler records a whole-task failure with
message "first" on the group and then throws an error whose message is
"second". -/
def firstFailEnv : Env :=
  { baseEnv with
    handlers := [fun r => HandlerOutcome.raise "second"
      { r with group := { r.group with
          taskStatus := some Status.Failure, statusMessage := some "first" } }] }

/-- The request state at the throw in a `firstFailEnv` run on `taskA`. -/
def rFail : DeviceAssociationModel :=
  { reqA with group := { groupA with
      taskStatus := some Status.Failure, statusMessage := some "first" } }

/-- A fixture environment whose only handler throws immediately and whose
terminal `SaveGroup` handler also fails, exercising the unawaited
fire-and-forget persistence call of the error path. -/
def raiseAndSaveFailEnv : Env :=
  { baseEnv with
    handlers := [fun r => HandlerOutcome.raise "boom" r]
    saveGroup := fun _ => .error (.error "save-group failed") }

/-- The arguments of the core-definition-version lookups in a trace. -/
def coreCallArgs (tr : List Evt) : List String :=
  tr.filterMap (fun e =>
    match e with
    | .ggGetCoreInfo a => some a
    | _ => none)

/-- The arguments of the device-definition-version lookups in a trace. -/
def deviceCallArgs (tr : List Evt) : List String :=
  tr.filterMap (fun e =>
    match e with
    | .ggGetDeviceInfo a => some a
    | _ => none)

/-- The arguments of the template lookups in a trace. -/
def templateCallArgs (tr : List Evt) : List (String × Nat) :=
  tr.filterMap (fun e =>
    match e with
    | .templatesGet n v => some (n, v)
    | _ => none)

/-- Formalisation of claim C7's words, specialised to the consequence used to
test it: if the four lookups were mutually independent — no lookup consuming
another's result — then changing only the result returned by the
group-version lookup could not change the argument passed to the
core-definition-version lookup. -/
def FourLookupsMutuallyIndependent : Prop :=
  ∀ (env : Env) (f : String → String → Except Err GGGroupVersionInfo)
    (t : DeviceTaskSummary),
    coreCallArgs
        (associateDevicesWithGroup { env with ggGetGroupVersionInfo := f } t).2 =
      coreCallArgs (associateDevicesWithGroup env t).2

/-- A group-version info differing from `ggvA` in both definition ARNs. -/
def ggvB : GGGroupVersionInfo :=
  { CoreDefinitionVersionArn := "core-arn-b", DeviceDefinitionVersionArn := "dev-arn-b" }

lemma checkDeviceFields_eq_none (items : List DeviceItem)
    (hd : ∀ d ∈ items,
      d.thingName ≠ "" ∧ d.type ≠ "" ∧ d.provisioningTemplate ≠ "") :
    checkDeviceFields items = none := by
  induction items with
  | nil => rfl
  | cons d rest ih =>
    have hdd := hd d (List.mem_cons_self d rest)
    simp only [checkDeviceFields, if_neg hdd.1, if_neg hdd.2.1, if_neg hdd.2.2]
    exact ih (fun x hx => hd x (List.mem_cons_of_mem d hx))

lemma createValidate_eq_none (groupName : String) (items : List DeviceItem)
    (hg : groupName ≠ "") (hi : items ≠ [])
    (hd : ∀ d ∈ items,
      d.thingName ≠ "" ∧ d.type ≠ "" ∧ d.provisioningTemplate ≠ "") :
    createValidate groupName items = none := by
  have hlen : ¬ items.length < 1 := by
    cases items with
    | nil => exact absurd rfl hi
    | cons a l => simp
  simp only [createValidate, if_neg hg, if_neg hlen]
  exact checkDeviceFields_eq_none items hd

lemma checkDeviceFields_finds_bad (items : List DeviceItem)
    (hd : ∃ d ∈ items,
      d.thingName = "" ∨ d.type = "" ∨ d.provisioningTemplate = "") :
    ∃ m, checkDeviceFields items = some (Err.validation m) := by
  induction items with
  | nil => simp at hd
  | cons d rest ih =>
    by_cases h1 : d.thingName = ""
    · exact ⟨"thingName", by simp [checkDeviceFields, h1]⟩
    by_cases h2 : d.type = ""
    · exact ⟨"type", by simp [checkDeviceFields, h1, h2]⟩
    by_cases h3 : d.provisioningTemplate = ""
    · exact ⟨"provisioningTemplate", by simp [checkDeviceFields, h1, h2, h3]⟩
    obtain ⟨x, hx, hbad⟩ := hd
    rcases List.mem_cons.mp hx with hxd | hx'
    · subst hxd
      rcases hbad with h | h | h
      · exact absurd h h1
      · exact absurd h h2
      · exact absurd h h3
    · obtain ⟨m, hm⟩ := ih ⟨x, hx', hbad⟩
      exact ⟨m, by simp [checkDeviceFields, h1, h2, h3, hm]⟩

lemma createValidate_finds_bad (groupName : String) (items : List DeviceItem)
    (h : groupName = "" ∨ items = [] ∨
      ∃ d ∈ items,
        d.thingName = "" ∨ d.type = "" ∨ d.provisioningTemplate = "") :
    ∃ m, createValidate groupName items = some (Err.validation m) := by
  by_cases hg : groupName = ""
  · exact ⟨"groupName", by simp [createValidate, hg]⟩
  by_cases hlen : items.length < 1
  · exact ⟨"Devices", by simp [createValidate, hg, hlen]⟩
  rcases h with h | h | h
  · exact absurd h hg
  · rw [h] at hlen
    simp at hlen
  · obtain ⟨m, hm⟩ := checkDeviceFields_finds_bad items h
    exact ⟨m, by simp [createValidate, hg, hlen, hm]⟩

lemma create_success_eq (env : Env) (groupName : String)
    (items : List DeviceItem) (g : GroupItem) (gg : GGGroupInfo)
    (hv : createValidate groupName items = none)
    (hg : env.groupsGet groupName = .ok (some g))
    (hgg : env.ggGetGroupInfo g.id = .ok gg)
    (hsave : env.saveTaskResult (mkTaskInfo env groupName items) = .ok ())
    (hsend : env.sendMessageResult = .ok ()) :
    createDeviceAssociationTask env groupName items =
      (.ok (mkTaskInfo env groupName items),
       [.groupsGet groupName, .ggGetGroupInfo g.id,
        .saveTask (mkTaskInfo env groupName items),
        .sendMessage env.queueUrl (mkTaskInfo env groupName items)
          "DeviceTaskSummary"]) := by
  simp only [createDeviceAssociationTask, hv, hg, hgg, hsave, hsend]

/-- Claim C4 (confirmed): when `groupName` is empty, or `items` is empty, or
some item has an empty `thingName`, `type` or `provisioningTemplate`,
`createDeviceAssociationTask` raises a validation error and its trace is
empty — no store and no queue interaction is performed. -/
theorem C4_validation_no_side_effects (env : Env) (groupName : String)
    (items : List DeviceItem)
    (h : groupName = "" ∨ items = [] ∨
      ∃ d ∈ items,
        d.thingName = "" ∨ d.type = "" ∨ d.provisioningTemplate = "") :
    ∃ m, createDeviceAssociationTask env groupName items =
      (.error (.validation m), []) := by
  obtain ⟨m, hm⟩ := createValidate_finds_bad groupName items h
  exact ⟨m, by simp [createDeviceAssociationTask, hm]⟩

/-- Witness for C4 at the spec's own example input
`createDeviceAssociationTask("", [])`. -/
theorem C4_validation_no_side_effects_witness :
    ∃ m, createDeviceAssociationTask baseEnv "" [] =
      (.error (.validation m), []) :=
  C4_validation_no_side_effects baseEnv "" [] (Or.inl rfl)

/-- Claim C5 (confirmed): on a valid input for which the group resolution and
control-plane confirmation (and the subsequent persistence and publish)
succeed, `createDeviceAssociationTask` returns a summary with status
`'Waiting'`, the freshly generated `taskId`, both timestamps set to the
current time, and a device list of the same length and order as the input
whose entries carry the input's `thingName`, `type` and
`provisioningTemplate` with status `'Waiting'`. -/
theorem C5_create_waiting_summary (env : Env) (groupName : String)
    (items : List DeviceItem) (g : GroupItem) (gg : GGGroupInfo)
    (hvg : groupName ≠ "") (hvi : items ≠ [])
    (hvd : ∀ d ∈ items,
      d.thingName ≠ "" ∧ d.type ≠ "" ∧ d.provisioningTemplate ≠ "")
    (hg : env.groupsGet groupName = .ok (some g))
    (hgg : env.ggGetGroupInfo g.id = .ok gg)
    (hsave : env.saveTaskResult (mkTaskInfo env groupName items) = .ok ())
    (hsend : env.sendMessageResult = .ok ()) :
    ∃ t, (createDeviceAssociationTask env groupName items).1 = .ok t ∧
      t.status = Status.Waiting ∧
      t.taskId = env.freshTaskId ∧
      t.createdAt = env.now ∧
      t.updatedAt = env.now ∧
      t.devices.length = items.length ∧
      ∀ (i : Nat) (hi : i < items.length) (hi2 : i < t.devices.length),
        (t.devices.get ⟨i, hi2⟩).thingName = (items.get ⟨i, hi⟩).thingName ∧
        (t.devices.get ⟨i, hi2⟩).type = (items.get ⟨i, hi⟩).type ∧
        (t.devices.get ⟨i, hi2⟩).provisioningTemplate =
          (items.get ⟨i, hi⟩).provisioningTemplate ∧
        (t.devices.get ⟨i, hi2⟩).status = Status.Waiting := by
  have hv := createValidate_eq_none groupName items hvg hvi hvd
  refine ⟨mkTaskInfo env groupName items, ?_, rfl, rfl, rfl, rfl, ?_, ?_⟩
  · rw [create_success_eq env groupName items g gg hv hg hgg hsave hsend]
  · simp [mkTaskInfo]
  · intro i hi hi2
    simp [mkTaskInfo, List.getElem_map]

/-- Witness for C5 at a concrete input. -/
theorem C5_create_waiting_summary_witness :
    ∃ t, (createDeviceAssociationTask baseEnv "group-1" [deviceA]).1 = .ok t ∧
      t.status = Status.Waiting ∧
      t.taskId = baseEnv.freshTaskId ∧
      t.createdAt = baseEnv.now ∧
      t.updatedAt = baseEnv.now ∧
      t.devices.length = [deviceA].length ∧
      ∀ (i : Nat) (hi : i < [deviceA].length) (hi2 : i < t.devices.length),
        (t.devices.get ⟨i, hi2⟩).thingName = ([deviceA].get ⟨i, hi⟩).thingName ∧
        (t.devices.get ⟨i, hi2⟩).type = ([deviceA].get ⟨i, hi⟩).type ∧
        (t.devices.get ⟨i, hi2⟩).provisioningTemplate =
          ([deviceA].get ⟨i, hi⟩).provisioningTemplate ∧
        (t.devices.get ⟨i, hi2⟩).status = Status.Waiting :=
  C5_create_waiting_summary baseEnv "group-1" [deviceA] groupA ggA
    (by decide) (by decide) (by decide) rfl rfl rfl rfl

/-- Claim C10 (confirmed): `createDeviceAssociationTask` never mutates its
`items` argument — the source builds each device of the summary as a shallow
copy `{...d, status:'Waiting'}`, embedded here as a pure `List.map` that
leaves `items` untouched — and each device of the returned summary equals
the corresponding input item with exactly its `status` field overwritten to
`'Waiting'` (all other fields, including `statusMessage`, preserved). -/
theorem C10_devices_fresh_copies (env : Env) (groupName : String)
    (items : List DeviceItem) (g : GroupItem) (gg : GGGroupInfo)
    (hvg : groupName ≠ "") (hvi : items ≠ [])
    (hvd : ∀ d ∈ items,
      d.thingName ≠ "" ∧ d.type ≠ "" ∧ d.provisioningTemplate ≠ "")
    (hg : env.groupsGet groupName = .ok (some g))
    (hgg : env.ggGetGroupInfo g.id = .ok gg)
    (hsave : env.saveTaskResult (mkTaskInfo env groupName items) = .ok ())
    (hsend : env.sendMessageResult = .ok ()) :
    ∃ t, (createDeviceAssociationTask env groupName items).1 = .ok t ∧
      t.devices = items.map (fun d => { d with status := Status.Waiting }) ∧
      ∀ (i : Nat) (hi : i < items.length) (hi2 : i < t.devices.length),
        t.devices.get ⟨i, hi2⟩ =
          { items.get ⟨i, hi⟩ with status := Status.Waiting } := by
  have hv := createValidate_eq_none groupName items hvg hvi hvd
  refine ⟨mkTaskInfo env groupName items, ?_, rfl, ?_⟩
  · rw [create_success_eq env groupName items g gg hv hg hgg hsave hsend]
  · intro i hi hi2
    simp [mkTaskInfo, List.getElem_map]

/-- Witness for C10 at a concrete input whose device carries a non-Waiting
status, showing the copy overwrites it. -/
theorem C10_devices_fresh_copies_witness :
    ∃ t, (createDeviceAssociationTask baseEnv "group-1"
        [{ deviceA with status := Status.Success }]).1 = .ok t ∧
      t.devices = [{ deviceA with status := Status.Success }].map
        (fun d => { d with status := Status.Waiting }) ∧
      ∀ (i : Nat) (hi : i < [{ deviceA with status := Status.Success }].length)
        (hi2 : i < t.devices.length),
        t.devices.get ⟨i, hi2⟩ =
          { [{ deviceA with status := Status.Success }].get ⟨i, hi⟩ with
            status := Status.Waiting } :=
  C10_devices_fresh_copies baseEnv "group-1"
    [{ deviceA with status := Status.Success }] groupA ggA
    (by decide) (by decide) (by decide) rfl rfl rfl rfl

/-- Claim C9 (confirmed): `getDeviceAssociationTask` validates only that
`taskId` is non-empty; with an empty `groupId` and a non-empty `taskId` no
validation error is raised and the empty `groupId` is forwarded unchanged to
the store lookup, whose result is returned as-is. -/
theorem C9_getTask_validates_only_taskId (env : Env) (taskId : String)
    (h : taskId ≠ "") :
    getDeviceAssociationTask env "" taskId =
      (env.getTask "" taskId, [Evt.getTask "" taskId]) := by
  simp [getDeviceAssociationTask, h]

/-- Witness for C9 at a concrete input. -/
theorem C9_getTask_validates_only_taskId_witness :
    getDeviceAssociationTask baseEnv "" "task-1" =
      (baseEnv.getTask "" "task-1", [Evt.getTask "" "task-1"]) :=
  C9_getTask_validates_only_taskId baseEnv "task-1" (by decide)

lemma create_groupsGet_error (env : Env) (groupName : String)
    (items : List DeviceItem) (e : Err)
    (hv : createValidate groupName items = none)
    (hG : env.groupsGet groupName = .error e) :
    createDeviceAssociationTask env groupName items =
      (.error e, [.groupsGet groupName]) := by
  simp only [createDeviceAssociationTask, hv, hG]

lemma create_groupsGet_none (env : Env) (groupName : String)
    (items : List DeviceItem)
    (hv : createValidate groupName items = none)
    (hG : env.groupsGet groupName = .ok none) :
    createDeviceAssociationTask env groupName items =
      (.error (.error "NOT_FOUND"), [.groupsGet groupName]) := by
  simp only [createDeviceAssociationTask, hv, hG]

lemma create_ggInfo_error (env : Env) (groupName : String)
    (items : List DeviceItem) (g : GroupItem) (e : Err)
    (hv : createValidate groupName items = none)
    (hG : env.groupsGet groupName = .ok (some g))
    (hGG : env.ggGetGroupInfo g.id = .error e) :
    createDeviceAssociationTask env groupName items =
      (.error e, [.groupsGet groupName, .ggGetGroupInfo g.id]) := by
  simp only [createDeviceAssociationTask, hv, hG, hGG]

lemma create_save_error (env : Env) (groupName : String)
    (items : List DeviceItem) (g : GroupItem) (gg : GGGroupInfo) (e : Err)
    (hv : createValidate groupName items = none)
    (hG : env.groupsGet groupName = .ok (some g))
    (hGG : env.ggGetGroupInfo g.id = .ok gg)
    (hS : env.saveTaskResult (mkTaskInfo env groupName items) = .error e) :
    createDeviceAssociationTask env groupName items =
      (.error e,
        [.groupsGet groupName, .ggGetGroupInfo g.id,
         .saveTask (mkTaskInfo env groupName items)]) := by
  simp only [createDeviceAssociationTask, hv, hG, hGG, hS]

lemma create_send_error (env : Env) (groupName : String)
    (items : List DeviceItem) (g : GroupItem) (gg : GGGroupInfo) (e : Err)
    (hv : createValidate groupName items = none)
    (hG : env.groupsGet groupName = .ok (some g))
    (hGG : env.ggGetGroupInfo g.id = .ok gg)
    (hS : env.saveTaskResult (mkTaskInfo env groupName items) = .ok ())
    (hSend : env.sendMessageResult = .error e) :
    createDeviceAssociationTask env groupName items =
      (.error e,
        [.groupsGet groupName, .ggGetGroupInfo g.id,
         .saveTask (mkTaskInfo env groupName items),
         .sendMessage env.queueUrl (mkTaskInfo env groupName items)
           "DeviceTaskSummary"]) := by
  simp only [createDeviceAssociationTask, hv, hG, hGG, hS, hSend]

/-- Claim C2 (confirmed): on every valid input, any queue publish performed
by `createDeviceAssociationTask` carries the very task that was persisted,
the store write of that task is in the trace, and the first store write
strictly precedes the first queue publish; and when the store write fails,
no queue publish occurs at all. -/
theorem C2_persist_before_publish (env : Env) (groupName : String)
    (items : List DeviceItem)
    (hvg : groupName ≠ "") (hvi : items ≠ [])
    (hvd : ∀ d ∈ items,
      d.thingName ≠ "" ∧ d.type ≠ "" ∧ d.provisioningTemplate ≠ "") :
    (∀ q b mt,
      Evt.sendMessage q b mt ∈ (createDeviceAssociationTask env groupName items).2 →
        b = mkTaskInfo env groupName items ∧
        Evt.saveTask b ∈ (createDeviceAssociationTask env groupName items).2 ∧
        (createDeviceAssociationTask env groupName items).2.findIdx isSaveTask <
          (createDeviceAssociationTask env groupName items).2.findIdx isSend) ∧
    (∀ e, env.saveTaskResult (mkTaskInfo env groupName items) = .error e →
      ∀ q b mt,
        Evt.sendMessage q b mt ∉ (createDeviceAssociationTask env groupName items).2) := by
  have hv := createValidate_eq_none groupName items hvg hvi hvd
  cases hG : env.groupsGet groupName with
  | error e =>
    rw [create_groupsGet_error env groupName items e hv hG]
    simp
  | ok og =>
    cases og with
    | none =>
      rw [create_groupsGet_none env groupName items hv hG]
      simp
    | some g =>
      cases hGG : env.ggGetGroupInfo g.id with
      | error e =>
        rw [create_ggInfo_error env groupName items g e hv hG hGG]
        simp
      | ok gg =>
        cases hS : env.saveTaskResult (mkTaskInfo env groupName items) with
        | error e =>
          rw [create_save_error env groupName items g gg e hv hG hGG hS]
          simp
        | ok u =>
          cases u
          have hfull : (createDeviceAssociationTask env groupName items).2 =
              [.groupsGet groupName, .ggGetGroupInfo g.id,
               .saveTask (mkTaskInfo env groupName items),
               .sendMessage env.queueUrl (mkTaskInfo env groupName items)
                 "DeviceTaskSummary"] := by
            cases hSend : env.sendMessageResult with
            | error e =>
              rw [create_send_error env groupName items g gg e hv hG hGG hS hSend]
            | ok v =>
              cases v
              rw [create_success_eq env groupName items g gg hv hG hGG hS hSend]
          rw [hfull]
          constructor
          · intro q b mt hmem
            simp only [List.mem_cons, List.not_mem_nil, or_false] at hmem
            have hb : b = mkTaskInfo env groupName items := by
              rcases hmem with h | h | h | h <;> simp_all
            subst hb
            refine ⟨rfl, by simp, ?_⟩
            simp [List.findIdx_cons, isSaveTask, isSend]
          · intro e he
            exact absurd he (by simp)

/-- Witness for C2 at a concrete valid input. -/
theorem C2_persist_before_publish_witness :
    (∀ q b mt,
      Evt.sendMessage q b mt ∈ (createDeviceAssociationTask baseEnv "group-1" [deviceA]).2 →
        b = mkTaskInfo baseEnv "group-1" [deviceA] ∧
        Evt.saveTask b ∈ (createDeviceAssociationTask baseEnv "group-1" [deviceA]).2 ∧
        (createDeviceAssociationTask baseEnv "group-1" [deviceA]).2.findIdx isSaveTask <
          (createDeviceAssociationTask baseEnv "group-1" [deviceA]).2.findIdx isSend) ∧
    (∀ e, baseEnv.saveTaskResult (mkTaskInfo baseEnv "group-1" [deviceA]) = .error e →
      ∀ q b mt,
        Evt.sendMessage q b mt ∉ (createDeviceAssociationTask baseEnv "group-1" [deviceA]).2) :=
  C2_persist_before_publish baseEnv "group-1" [deviceA]
    (by decide) (by decide) (by decide)

lemma associate_validate_error (env : Env) (t : DeviceTaskSummary) (e : Err)
    (hv : associateValidate t = some e) :
    associateDevicesWithGroup env t = (.error e, []) := by
  simp only [associateDevicesWithGroup, hv]

lemma associate_groupsGet_error (env : Env) (t : DeviceTaskSummary) (e : Err)
    (hv : associateValidate t = none)
    (hg : env.groupsGet t.groupName = .error e) :
    associateDevicesWithGroup env t = (.error e, [.groupsGet t.groupName]) := by
  simp only [associateDevicesWithGroup, hv, hg]

lemma associate_groupsGet_none (env : Env) (t : DeviceTaskSummary)
    (hv : associateValidate t = none)
    (hg : env.groupsGet t.groupName = .ok none) :
    associateDevicesWithGroup env t =
      (.error (.error "NOT_FOUND"), [.groupsGet t.groupName]) := by
  simp only [associateDevicesWithGroup, hv, hg]

lemma associate_ggInfo_error (env : Env) (t : DeviceTaskSummary)
    (g : GroupItem) (e : Err)
    (hv : associateValidate t = none)
    (hg : env.groupsGet t.groupName = .ok (some g))
    (hgg : env.ggGetGroupInfo g.id = .error e) :
    associateDevicesWithGroup env t =
      (.error e, [.groupsGet t.groupName, .ggGetGroupInfo g.id]) := by
  simp only [associateDevicesWithGroup, hv, hg, hgg]

lemma associate_ggVersion_error (env : Env) (t : DeviceTaskSummary)
    (g : GroupItem) (gg : GGGroupInfo) (e : Err)
    (hv : associateValidate t = none)
    (hg : env.groupsGet t.groupName = .ok (some g))
    (hgg : env.ggGetGroupInfo g.id = .ok gg)
    (hggv : env.ggGetGroupVersionInfo gg.Id gg.LatestVersion = .error e) :
    associateDevicesWithGroup env t =
      (.error e,
        [.groupsGet t.groupName, .ggGetGroupInfo g.id,
         .ggGetGroupVersionInfo gg.Id gg.LatestVersion]) := by
  simp only [associateDevicesWithGroup, hv, hg, hgg, hggv]

lemma associate_core_error (env : Env) (t : DeviceTaskSummary)
    (g : GroupItem) (gg : GGGroupInfo) (ggv : GGGroupVersionInfo) (e : Err)
    (hv : associateValidate t = none)
    (hg : env.groupsGet t.groupName = .ok (some g))
    (hgg : env.ggGetGroupInfo g.id = .ok gg)
    (hggv : env.ggGetGroupVersionInfo gg.Id gg.LatestVersion = .ok ggv)
    (hcore : env.ggGetCoreInfo ggv.CoreDefinitionVersionArn = .error e) :
    associateDevicesWithGroup env t = (.error e, lookupTrace t g gg ggv) := by
  simp only [associateDevicesWithGroup, hv, hg, hgg, hggv, hcore]

lemma associate_device_error (env : Env) (t : DeviceTaskSummary)
    (g : GroupItem) (gg : GGGroupInfo) (ggv : GGGroupVersionInfo)
    (core : String) (e : Err)
    (hv : associateValidate t = none)
    (hg : env.groupsGet t.groupName = .ok (some g))
    (hgg : env.ggGetGroupInfo g.id = .ok gg)
    (hggv : env.ggGetGroupVersionInfo gg.Id gg.LatestVersion = .ok ggv)
    (hcore : env.ggGetCoreInfo ggv.CoreDefinitionVersionArn = .ok core)
    (hdev : env.ggGetDeviceInfo ggv.DeviceDefinitionVersionArn = .error e) :
    associateDevicesWithGroup env t = (.error e, lookupTrace t g gg ggv) := by
  simp only [associateDevicesWithGroup, hv, hg, hgg, hggv, hcore, hdev]

lemma associate_template_error (env : Env) (t : DeviceTaskSummary)
    (g : GroupItem) (gg : GGGroupInfo) (ggv : GGGroupVersionInfo)
    (core dev : String) (e : Err)
    (hv : associateValidate t = none)
    (hg : env.groupsGet t.groupName = .ok (some g))
    (hgg : env.ggGetGroupInfo g.id = .ok gg)
    (hggv : env.ggGetGroupVersionInfo gg.Id gg.LatestVersion = .ok ggv)
    (hcore : env.ggGetCoreInfo ggv.CoreDefinitionVersionArn = .ok core)
    (hdev : env.ggGetDeviceInfo ggv.DeviceDefinitionVersionArn = .ok dev)
    (htmpl : getTemplateItem env g.templateName g.templateVersionNo = .error e) :
    associateDevicesWithGroup env t = (.error e, lookupTrace t g gg ggv) := by
  simp only [associateDevicesWithGroup, hv, hg, hgg, hggv, hcore, hdev, htmpl]

lemma associate_reduces (env : Env) (t : DeviceTaskSummary)
    (g : GroupItem) (gg : GGGroupInfo) (ggv : GGGroupVersionInfo)
    (core dev : String) (tmpl : TemplateItem)
    (hv : associateValidate t = none)
    (hg : env.groupsGet t.groupName = .ok (some g))
    (hgg : env.ggGetGroupInfo g.id = .ok gg)
    (hggv : env.ggGetGroupVersionInfo gg.Id gg.LatestVersion = .ok ggv)
    (hcore : env.ggGetCoreInfo ggv.CoreDefinitionVersionArn = .ok core)
    (hdev : env.ggGetDeviceInfo ggv.DeviceDefinitionVersionArn = .ok dev)
    (htmpl : getTemplateItem env g.templateName g.templateVersionNo = .ok tmpl) :
    associateDevicesWithGroup env t =
      ((runAssociationChain env (mkRequest t g gg ggv core dev tmpl)).1,
       lookupTrace t g gg ggv ++
         (runAssociationChain env (mkRequest t g gg ggv core dev tmpl)).2) := by
  simp only [associateDevicesWithGroup, hv, hg, hgg, hggv, hcore, hdev, htmpl]

lemma runChain_events (sg : DeviceAssociationModel → Except Err Unit)
    (hs : List (DeviceAssociationModel → HandlerOutcome)) :
    ∀ r, ∀ e ∈ (runChain sg hs r).2, ∃ r2, e = Evt.saveGroupInvoked r2 := by
  induction hs with
  | nil =>
    intro r e he
    cases hsg : sg r with
    | ok u => simp [runChain, hsg] at he; exact ⟨r, he⟩
    | error x => simp [runChain, hsg] at he; exact ⟨r, he⟩
  | cons h hs ih =>
    intro r e he
    cases hh : h r with
    | next r2 =>
      simp only [runChain, hh] at he
      exact ih r2 e he
    | halt r2 =>
      cases hsg : sg r2 with
      | ok u => simp [runChain, hh, hsg] at he; exact ⟨r2, he⟩
      | error x => simp [runChain, hh, hsg] at he; exact ⟨r2, he⟩
    | raise m r2 =>
      simp [runChain, hh] at he

lemma countSaves_append (l1 l2 : List Evt) :
    countSaves (l1 ++ l2) = countSaves l1 + countSaves l2 := by
  simp [countSaves, List.filter_append]

lemma countSaves_lookupTrace (t : DeviceTaskSummary) (g : GroupItem)
    (gg : GGGroupInfo) (ggv : GGGroupVersionInfo) :
    countSaves (lookupTrace t g gg ggv) = 0 := rfl

lemma runChain_count (sg : DeviceAssociationModel → Except Err Unit)
    (hs : List (DeviceAssociationModel → HandlerOutcome)) :
    ∀ r, countSaves (runChain sg hs r).2 ≤ 1 ∧
      (∀ x, (runChain sg hs r).1 = .ok x → countSaves (runChain sg hs r).2 = 1) := by
  induction hs with
  | nil =>
    intro r
    cases hsg : sg r with
    | ok u => simp [runChain, hsg, countSaves]
    | error x => simp [runChain, hsg, countSaves]
  | cons h hs ih =>
    intro r
    cases hh : h r with
    | next r2 => simpa only [runChain, hh] using ih r2
    | halt r2 =>
      cases hsg : sg r2 with
      | ok u => simp [runChain, hh, hsg, countSaves]
      | error x => simp [runChain, hh, hsg, countSaves]
    | raise m r2 => simp [runChain, hh, countSaves]

lemma runChain_notWaiting (sg : DeviceAssociationModel → Except Err Unit)
    (hs : List (DeviceAssociationModel → HandlerOutcome)) :
    ∀ r, (∀ h ∈ hs, HandlerPreservesNotWaiting h) →
      r.taskInfo.status ≠ Status.Waiting →
      ((∀ r2, Evt.saveGroupInvoked r2 ∈ (runChain sg hs r).2 →
          r2.taskInfo.status ≠ Status.Waiting) ∧
       (∀ m r2, (runChain sg hs r).1 = .error (m, r2) →
          r2.taskInfo.status ≠ Status.Waiting)) := by
  induction hs with
  | nil =>
    intro r _ hr
    cases hsg : sg r with
    | ok u =>
      refine ⟨?_, ?_⟩
      · intro r2 hmem
        simp [runChain, hsg] at hmem
        simpa [hmem] using hr
      · intro m r2 hres
        simp [runChain, hsg] at hres
    | error x =>
      refine ⟨?_, ?_⟩
      · intro r2 hmem
        simp [runChain, hsg] at hmem
        simpa [hmem] using hr
      · intro m r2 hres
        simp [runChain, hsg] at hres
        simpa [hres.2] using hr
  | cons h hs ih =>
    intro r hpres hr
    have hpr : (h r).request.taskInfo.status ≠ Status.Waiting :=
      hpres h (List.mem_cons_self h hs) r hr
    cases hh : h r with
    | next r2 =>
      have hr2 : r2.taskInfo.status ≠ Status.Waiting := by
        simpa [hh, HandlerOutcome.request] using hpr
      simpa only [runChain, hh] using
        ih r2 (fun x hx => hpres x (List.mem_cons_of_mem h hx)) hr2
    | halt r2 =>
      have hr2 : r2.taskInfo.status ≠ Status.Waiting := by
        simpa [hh, HandlerOutcome.request] using hpr
      cases hsg : sg r2 with
      | ok u =>
        refine ⟨?_, ?_⟩
        · intro r3 hmem
          simp [runChain, hh, hsg] at hmem
          simpa [hmem] using hr2
        · intro m r3 hres
          simp [runChain, hh, hsg] at hres
      | error x =>
        refine ⟨?_, ?_⟩
        · intro r3 hmem
          simp [runChain, hh, hsg] at hmem
          simpa [hmem] using hr2
        · intro m r3 hres
          simp [runChain, hh, hsg] at hres
          simpa [hres.2] using hr2
    | raise m r2 =>
      have hr2 : r2.taskInfo.status ≠ Status.Waiting := by
        simpa [hh, HandlerOutcome.request] using hpr
      refine ⟨?_, ?_⟩
      · intro r3 hmem
        simp [runChain, hh] at hmem
      · intro m2 r3 hres
        simp [runChain, hh] at hres
        simpa [hres.2] using hr2

lemma runAssociationChain_chainInvoked (env : Env) (req : DeviceAssociationModel) :
    ∀ r, Evt.chainInvoked r ∈ (runAssociationChain env req).2 → r = req := by
  intro r hmem
  rcases hrc : runChain env.saveGroup env.handlers req with ⟨cres, ctr⟩
  have hctr : (runChain env.saveGroup env.handlers req).2 = ctr := by rw [hrc]
  cases cres with
  | ok x =>
    simp only [runAssociationChain, hrc] at hmem
    rcases List.mem_cons.mp hmem with h | h
    · simpa using h
    · obtain ⟨r2, hr2⟩ :=
        runChain_events env.saveGroup env.handlers req (Evt.chainInvoked r) (hctr ▸ h)
      simp at hr2
  | error me =>
    rcases me with ⟨m, rr⟩
    simp only [runAssociationChain, hrc] at hmem
    rcases List.mem_cons.mp hmem with h | h
    · simpa using h
    · rcases List.mem_append.mp h with h2 | h2
      · obtain ⟨r2, hr2⟩ :=
          runChain_events env.saveGroup env.handlers req (Evt.chainInvoked r) (hctr ▸ h2)
        simp at hr2
      · simp at h2

/-- Claim C6 (confirmed): whenever `associateDevicesWithGroup` invokes the
handler chain, the request it passes to the first handler has
`taskInfo.status = 'InProgress'` and every device status `'InProgress'`. -/
theorem C6_inprogress_before_chain (env : Env) (t : DeviceTaskSummary) :
    ∀ r, Evt.chainInvoked r ∈ (associateDevicesWithGroup env t).2 →
      r.taskInfo.status = Status.InProgress ∧
      ∀ d ∈ r.taskInfo.devices, d.status = Status.InProgress := by
  intro r hmem
  cases hv : associateValidate t with
  | some e =>
    rw [associate_validate_error env t e hv] at hmem
    simp at hmem
  | none =>
    cases hg : env.groupsGet t.groupName with
    | error e =>
      rw [associate_groupsGet_error env t e hv hg] at hmem
      simp at hmem
    | ok og =>
      cases og with
      | none =>
        rw [associate_groupsGet_none env t hv hg] at hmem
        simp at hmem
      | some g =>
        cases hgg : env.ggGetGroupInfo g.id with
        | error e =>
          rw [associate_ggInfo_error env t g e hv hg hgg] at hmem
          simp at hmem
        | ok gg =>
          cases hggv : env.ggGetGroupVersionInfo gg.Id gg.LatestVersion with
          | error e =>
            rw [associate_ggVersion_error env t g gg e hv hg hgg hggv] at hmem
            simp at hmem
          | ok ggv =>
            cases hcore : env.ggGetCoreInfo ggv.CoreDefinitionVersionArn with
            | error e =>
              rw [associate_core_error env t g gg ggv e hv hg hgg hggv hcore] at hmem
              simp [lookupTrace] at hmem
            | ok core =>
              cases hdev : env.ggGetDeviceInfo ggv.DeviceDefinitionVersionArn with
              | error e =>
                rw [associate_device_error env t g gg ggv core e
                  hv hg hgg hggv hcore hdev] at hmem
                simp [lookupTrace] at hmem
              | ok dev =>
                cases htmpl : getTemplateItem env g.templateName g.templateVersionNo with
                | error e =>
                  rw [associate_template_error env t g gg ggv core dev e
                    hv hg hgg hggv hcore hdev htmpl] at hmem
                  simp [lookupTrace] at hmem
                | ok tmpl =>
                  rw [associate_reduces env t g gg ggv core dev tmpl
                    hv hg hgg hggv hcore hdev htmpl] at hmem
                  simp only [List.mem_append] at hmem
                  rcases hmem with h | h
                  · simp [lookupTrace] at h
                  · have hreq := runAssociationChain_chainInvoked env _ r h
                    subst hreq
                    refine ⟨rfl, ?_⟩
                    intro d hd
                    simp only [mkRequest, markInProgress, List.mem_map] at hd
                    obtain ⟨x, hx, rfl⟩ := hd
                    rfl

/-- Witness for C6: in a concrete successful run, the request handed to the
chain is `reqA`, which satisfies the `InProgress` properties. -/
theorem C6_inprogress_before_chain_witness :
    reqA.taskInfo.status = Status.InProgress ∧
    ∀ d ∈ reqA.taskInfo.devices, d.status = Status.InProgress :=
  C6_inprogress_before_chain baseEnv taskA reqA (by decide)

lemma getLast?_middle (l1 l2 : List Evt) (x a : Evt) :
    (l1 ++ (x :: (l2 ++ [a]))).getLast? = some a := by
  rw [show l1 ++ (x :: (l2 ++ [a])) = (l1 ++ x :: l2) ++ [a] by simp]
  exact List.getLast?_concat _

/-- Claim C3 (confirmed): when the handler chain of
`associateDevicesWithGroup` throws, the orchestrator's catch block overwrites
`group.taskStatus` with `'Failure'` and `group.statusMessage` with the
error's message only if `group.taskStatus` is not already `'Failure'`; if a
failure was already recorded, the terminal persistence call receives the
request with its previously recorded `taskStatus` and `statusMessage`
entirely unchanged, so the persisted failure message is the first failure's
message. -/
theorem C3_first_failure_wins (env : Env) (t : DeviceTaskSummary)
    (g : GroupItem) (gg : GGGroupInfo) (ggv : GGGroupVersionInfo)
    (core dev : String) (tmpl : TemplateItem)
    (m : String) (r' : DeviceAssociationModel) (ctr : List Evt)
    (hv : associateValidate t = none)
    (hg : env.groupsGet t.groupName = .ok (some g))
    (hgg : env.ggGetGroupInfo g.id = .ok gg)
    (hggv : env.ggGetGroupVersionInfo gg.Id gg.LatestVersion = .ok ggv)
    (hcore : env.ggGetCoreInfo ggv.CoreDefinitionVersionArn = .ok core)
    (hdev : env.ggGetDeviceInfo ggv.DeviceDefinitionVersionArn = .ok dev)
    (htmpl : getTemplateItem env g.templateName g.templateVersionNo = .ok tmpl)
    (hchain : runChain env.saveGroup env.handlers
        (mkRequest t g gg ggv core dev tmpl) = (.error (m, r'), ctr)) :
    (r'.group.taskStatus = some Status.Failure →
      (associateDevicesWithGroup env t).2.getLast? =
        some (Evt.saveGroupInvoked r')) ∧
    (r'.group.taskStatus ≠ some Status.Failure →
      (associateDevicesWithGroup env t).2.getLast? =
        some (Evt.saveGroupInvoked
          { r' with group := { r'.group with
              taskStatus := some Status.Failure,
              statusMessage := some m } })) := by
  rw [associate_reduces env t g gg ggv core dev tmpl hv hg hgg hggv hcore hdev htmpl]
  simp only [runAssociationChain, hchain]
  constructor
  · intro hfail
    have hupd : catchGroupUpdate m r'.group = r'.group := by
      simp [catchGroupUpdate, hfail]
    rw [hupd]
    have heta : ({ r' with group := r'.group } : DeviceAssociationModel) = r' := rfl
    rw [heta]
    exact getLast?_middle _ _ _ _
  · intro hnf
    have hupd : catchGroupUpdate m r'.group =
        { r'.group with
          taskStatus := some Status.Failure
          statusMessage := some m } := by
      simp [catchGroupUpdate, hnf]
    rw [hupd]
    exact getLast?_middle _ _ _ _

/-- Witness for C3: the fixture handler records a whole-task failure with
message "first" and then throws "second"; the persisted request still
carries the first failure. -/
theorem C3_first_failure_wins_witness :
    (associateDevicesWithGroup firstFailEnv taskA).2.getLast? =
      some (Evt.saveGroupInvoked rFail) :=
  (C3_first_failure_wins firstFailEnv taskA groupA ggA ggvA "core-arn-a"
    "dev-arn-a" tmplA "second" rFail [] (by decide) rfl rfl rfl rfl rfl rfl
    rfl).1 (by decide)

/-- Claim C8 (confirmed): in the error path of `associateDevicesWithGroup`
the terminal persistence call `saveGroupHandler.handle(request)` is made
without awaiting its result: the invocation is the trace's final event, the
method returns normally, and — since this theorem holds for every behaviour
of `env.saveGroup`, including one that always throws — any error the
persistence call raises is not observed by the caller. -/
theorem C8_error_path_fire_and_forget (env : Env) (t : DeviceTaskSummary)
    (g : GroupItem) (gg : GGGroupInfo) (ggv : GGGroupVersionInfo)
    (core dev : String) (tmpl : TemplateItem)
    (m : String) (r' : DeviceAssociationModel) (ctr : List Evt)
    (hv : associateValidate t = none)
    (hg : env.groupsGet t.groupName = .ok (some g))
    (hgg : env.ggGetGroupInfo g.id = .ok gg)
    (hggv : env.ggGetGroupVersionInfo gg.Id gg.LatestVersion = .ok ggv)
    (hcore : env.ggGetCoreInfo ggv.CoreDefinitionVersionArn = .ok core)
    (hdev : env.ggGetDeviceInfo ggv.DeviceDefinitionVersionArn = .ok dev)
    (htmpl : getTemplateItem env g.templateName g.templateVersionNo = .ok tmpl)
    (hchain : runChain env.saveGroup env.handlers
        (mkRequest t g gg ggv core dev tmpl) = (.error (m, r'), ctr)) :
    (associateDevicesWithGroup env t).1 = .ok () ∧
    ∃ rr, (associateDevicesWithGroup env t).2.getLast? =
      some (Evt.saveGroupInvoked rr) := by
  rw [associate_reduces env t g gg ggv core dev tmpl hv hg hgg hggv hcore hdev htmpl]
  simp only [runAssociationChain, hchain]
  exact ⟨by simp, ⟨_, getLast?_middle _ _ _ _⟩⟩

/-- Witness for C8: the fixture's chain throws and its `SaveGroup` handler
always fails, yet the method returns normally with the persistence
invocation as the final trace event. -/
theorem C8_error_path_fire_and_forget_witness :
    (associateDevicesWithGroup raiseAndSaveFailEnv taskA).1 = .ok () ∧
    ∃ rr, (associateDevicesWithGroup raiseAndSaveFailEnv taskA).2.getLast? =
      some (Evt.saveGroupInvoked rr) :=
  C8_error_path_fire_and_forget raiseAndSaveFailEnv taskA groupA ggA ggvA
    "core-arn-a" "dev-arn-a" tmplA "boom" reqA [] (by decide) rfl rfl rfl rfl
    rfl rfl rfl

lemma countSaves_cons_chainInvoked (r : DeviceAssociationModel) (l : List Evt) :
    countSaves (Evt.chainInvoked r :: l) = countSaves l := by
  simp [countSaves]

lemma countSaves_singleton_saveGroup (r : DeviceAssociationModel) :
    countSaves [Evt.saveGroupInvoked r] = 1 := rfl

/-- Counterexample to claim C1 as stated: in a run whose chain consists of
seven pass-through handlers and whose terminal `SaveGroup` handler throws,
the chain's own `SaveGroup` invocation fails, the orchestrator's catch block
invokes `SaveGroup` a second time, and the terminal persistence step is
invoked twice, not exactly once. -/
theorem C1_counterexample :
    countSaves (associateDevicesWithGroup sgFailEnv taskA).2 = 2 := by decide

/-- Claim C1 (corrected): once the chain of `associateDevicesWithGroup`
begins executing, the terminal persistence step (`SaveGroup`'s `handle`) is
invoked at least once and at most twice: exactly once when the chain
completes normally, and exactly once when the chain's error was raised
before any `SaveGroup` invocation (i.e. by a non-terminal handler) — the
double invocation occurs only when the chain's `SaveGroup` call itself
throws.  Moreover, provided no handler resets the task status to
`'Waiting'`, the task status carried by every `SaveGroup` invocation is not
`'Waiting'`. -/
theorem C1_saveGroup_invocations (env : Env) (t : DeviceTaskSummary)
    (g : GroupItem) (gg : GGGroupInfo) (ggv : GGGroupVersionInfo)
    (core dev : String) (tmpl : TemplateItem)
    (cres : Except (String × DeviceAssociationModel) DeviceAssociationModel)
    (ctr : List Evt)
    (hv : associateValidate t = none)
    (hg : env.groupsGet t.groupName = .ok (some g))
    (hgg : env.ggGetGroupInfo g.id = .ok gg)
    (hggv : env.ggGetGroupVersionInfo gg.Id gg.LatestVersion = .ok ggv)
    (hcore : env.ggGetCoreInfo ggv.CoreDefinitionVersionArn = .ok core)
    (hdev : env.ggGetDeviceInfo ggv.DeviceDefinitionVersionArn = .ok dev)
    (htmpl : getTemplateItem env g.templateName g.templateVersionNo = .ok tmpl)
    (hchain : runChain env.saveGroup env.handlers
        (mkRequest t g gg ggv core dev tmpl) = (cres, ctr))
    (hpres : ∀ h ∈ env.handlers, HandlerPreservesNotWaiting h) :
    1 ≤ countSaves (associateDevicesWithGroup env t).2 ∧
    countSaves (associateDevicesWithGroup env t).2 ≤ 2 ∧
    (∀ x, cres = .ok x →
      countSaves (associateDevicesWithGroup env t).2 = 1) ∧
    (∀ m r', cres = .error (m, r') → countSaves ctr = 0 →
      countSaves (associateDevicesWithGroup env t).2 = 1) ∧
    (∀ r2, Evt.saveGroupInvoked r2 ∈ (associateDevicesWithGroup env t).2 →
      r2.taskInfo.status ≠ Status.Waiting) := by
  have hctr2 : (runChain env.saveGroup env.handlers
      (mkRequest t g gg ggv core dev tmpl)).2 = ctr := by rw [hchain]
  have hcount := runChain_count env.saveGroup env.handlers
    (mkRequest t g gg ggv core dev tmpl)
  have hInP : (mkRequest t g gg ggv core dev tmpl).taskInfo.status ≠
      Status.Waiting := by
    simp [mkRequest, markInProgress]
  have hnw := runChain_notWaiting env.saveGroup env.handlers
    (mkRequest t g gg ggv core dev tmpl) hpres hInP
  rw [associate_reduces env t g gg ggv core dev tmpl hv hg hgg hggv hcore hdev htmpl]
  cases cres with
  | ok x =>
    have hc1 : countSaves ctr = 1 := by
      have := hcount.2 x (by rw [hchain])
      rwa [hctr2] at this
    simp only [runAssociationChain, hchain]
    refine ⟨?_, ?_, ?_, ?_, ?_⟩
    · simp [countSaves_append, countSaves_lookupTrace,
        countSaves_cons_chainInvoked, hc1]
    · simp [countSaves_append, countSaves_lookupTrace,
        countSaves_cons_chainInvoked, hc1]
    · intro x2 hx2
      simp [countSaves_append, countSaves_lookupTrace,
        countSaves_cons_chainInvoked, hc1]
    · intro m r' habs
      simp at habs
    · intro r2 hmem
      simp only [List.mem_append, List.mem_cons] at hmem
      rcases hmem with h | h | h
      · simp [lookupTrace] at h
      · simp at h
      · exact hnw.1 r2 (hctr2 ▸ h)
  | error me =>
    rcases me with ⟨m0, r0⟩
    have hcle : countSaves ctr ≤ 1 := by
      have := hcount.1
      rwa [hctr2] at this
    have hr0 : r0.taskInfo.status ≠ Status.Waiting :=
      hnw.2 m0 r0 (by rw [hchain])
    simp only [runAssociationChain, hchain]
    have htot : countSaves (lookupTrace t g gg ggv ++
        Evt.chainInvoked (mkRequest t g gg ggv core dev tmpl) ::
          (ctr ++ [Evt.saveGroupInvoked
            { r0 with group := catchGroupUpdate m0 r0.group }])) =
        countSaves ctr + 1 := by
      simp [countSaves_append, countSaves_lookupTrace,
        countSaves_cons_chainInvoked, countSaves_singleton_saveGroup]
    refine ⟨?_, ?_, ?_, ?_, ?_⟩
    · rw [htot]; omega
    · rw [htot]; omega
    · intro x2 hx2
      simp at hx2
    · intro m r' heq h0
      rw [htot, h0]
    · intro r2 hmem
      simp only [List.mem_append, List.mem_cons, List.not_mem_nil,
        or_false] at hmem
      rcases hmem with h | h | h | h
      · simp [lookupTrace] at h
      · simp at h
      · exact hnw.1 r2 (hctr2 ▸ h)
      · have : r2 = { r0 with group := catchGroupUpdate m0 r0.group } := by
          simpa using h
        rw [this]
        exact hr0

/-- Witness for the amended C1 on a successful concrete run: the terminal
persistence step is invoked exactly once and never with a `'Waiting'` task
status. -/
theorem C1_saveGroup_invocations_witness :
    1 ≤ countSaves (associateDevicesWithGroup baseEnv taskA).2 ∧
    countSaves (associateDevicesWithGroup baseEnv taskA).2 ≤ 2 ∧
    (∀ x, (Except.ok reqA :
        Except (String × DeviceAssociationModel) DeviceAssociationModel) =
          .ok x →
      countSaves (associateDevicesWithGroup baseEnv taskA).2 = 1) ∧
    (∀ m r', (Except.ok reqA :
        Except (String × DeviceAssociationModel) DeviceAssociationModel) =
          .error (m, r') →
      countSaves [Evt.saveGroupInvoked reqA] = 0 →
      countSaves (associateDevicesWithGroup baseEnv taskA).2 = 1) ∧
    (∀ r2, Evt.saveGroupInvoked r2 ∈ (associateDevicesWithGroup baseEnv taskA).2 →
      r2.taskInfo.status ≠ Status.Waiting) :=
  C1_saveGroup_invocations baseEnv taskA groupA ggA ggvA "core-arn-a"
    "dev-arn-a" tmplA (.ok reqA) [Evt.saveGroupInvoked reqA] (by decide) rfl
    rfl rfl rfl rfl rfl rfl
    (by
      intro h hh
      simp only [baseEnv, List.mem_singleton] at hh
      subst hh
      intro r hr
      simpa [HandlerOutcome.request] using hr)

lemma runAssociationChain_no_lookups (env : Env) (req : DeviceAssociationModel) :
    ∀ e ∈ (runAssociationChain env req).2,
      (∃ r2, e = Evt.chainInvoked r2) ∨ ∃ r2, e = Evt.saveGroupInvoked r2 := by
  intro e he
  rcases hrc : runChain env.saveGroup env.handlers req with ⟨cres, ctr⟩
  have hctr : (runChain env.saveGroup env.handlers req).2 = ctr := by rw [hrc]
  cases cres with
  | ok x =>
    simp only [runAssociationChain, hrc] at he
    rcases List.mem_cons.mp he with h | h
    · exact Or.inl ⟨req, h⟩
    · exact Or.inr (runChain_events env.saveGroup env.handlers req e (hctr ▸ h))
  | error me =>
    rcases me with ⟨m, rr⟩
    simp only [runAssociationChain, hrc] at he
    rcases List.mem_cons.mp he with h | h
    · exact Or.inl ⟨req, h⟩
    · rcases List.mem_append.mp h with h2 | h2
      · exact Or.inr (runChain_events env.saveGroup env.handlers req e (hctr ▸ h2))
      · simp only [List.mem_singleton] at h2
        exact Or.inr ⟨_, h2⟩

lemma coreCallArgs_append (l1 l2 : List Evt) :
    coreCallArgs (l1 ++ l2) = coreCallArgs l1 ++ coreCallArgs l2 := by
  simp [coreCallArgs, List.filterMap_append]

lemma deviceCallArgs_append (l1 l2 : List Evt) :
    deviceCallArgs (l1 ++ l2) = deviceCallArgs l1 ++ deviceCallArgs l2 := by
  simp [deviceCallArgs, List.filterMap_append]

lemma templateCallArgs_append (l1 l2 : List Evt) :
    templateCallArgs (l1 ++ l2) = templateCallArgs l1 ++ templateCallArgs l2 := by
  simp [templateCallArgs, List.filterMap_append]

lemma coreCallArgs_chain (env : Env) (req : DeviceAssociationModel) :
    coreCallArgs (runAssociationChain env req).2 = [] := by
  rw [coreCallArgs, List.filterMap_eq_nil_iff]
  intro e he
  rcases runAssociationChain_no_lookups env req e he with ⟨r2, h⟩ | ⟨r2, h⟩ <;>
    subst h <;> rfl

lemma deviceCallArgs_chain (env : Env) (req : DeviceAssociationModel) :
    deviceCallArgs (runAssociationChain env req).2 = [] := by
  rw [deviceCallArgs, List.filterMap_eq_nil_iff]
  intro e he
  rcases runAssociationChain_no_lookups env req e he with ⟨r2, h⟩ | ⟨r2, h⟩ <;>
    subst h <;> rfl

lemma templateCallArgs_chain (env : Env) (req : DeviceAssociationModel) :
    templateCallArgs (runAssociationChain env req).2 = [] := by
  rw [templateCallArgs, List.filterMap_eq_nil_iff]
  intro e he
  rcases runAssociationChain_no_lookups env req e he with ⟨r2, h⟩ | ⟨r2, h⟩ <;>
    subst h <;> rfl

lemma lookupArgs_stage (env : Env) (t : DeviceTaskSummary) (g : GroupItem)
    (gg : GGGroupInfo) (ggv : GGGroupVersionInfo)
    (hv : associateValidate t = none)
    (hg : env.groupsGet t.groupName = .ok (some g))
    (hgg : env.ggGetGroupInfo g.id = .ok gg)
    (hggv : env.ggGetGroupVersionInfo gg.Id gg.LatestVersion = .ok ggv) :
    coreCallArgs (associateDevicesWithGroup env t).2 =
      [ggv.CoreDefinitionVersionArn] ∧
    deviceCallArgs (associateDevicesWithGroup env t).2 =
      [ggv.DeviceDefinitionVersionArn] ∧
    templateCallArgs (associateDevicesWithGroup env t).2 =
      [(g.templateName, g.templateVersionNo)] := by
  cases hcore : env.ggGetCoreInfo ggv.CoreDefinitionVersionArn with
  | error e =>
    rw [associate_core_error env t g gg ggv e hv hg hgg hggv hcore]
    exact ⟨rfl, rfl, rfl⟩
  | ok core =>
    cases hdev : env.ggGetDeviceInfo ggv.DeviceDefinitionVersionArn with
    | error e =>
      rw [associate_device_error env t g gg ggv core e hv hg hgg hggv hcore hdev]
      exact ⟨rfl, rfl, rfl⟩
    | ok dev =>
      cases htmpl : getTemplateItem env g.templateName g.templateVersionNo with
      | error e =>
        rw [associate_template_error env t g gg ggv core dev e
          hv hg hgg hggv hcore hdev htmpl]
        exact ⟨rfl, rfl, rfl⟩
      | ok tmpl =>
        rw [associate_reduces env t g gg ggv core dev tmpl
          hv hg hgg hggv hcore hdev htmpl]
        refine ⟨?_, ?_, ?_⟩
        · show coreCallArgs (lookupTrace t g gg ggv ++
            (runAssociationChain env (mkRequest t g gg ggv core dev tmpl)).2) = _
          rw [coreCallArgs_append, coreCallArgs_chain]
          rfl
        · show deviceCallArgs (lookupTrace t g gg ggv ++
            (runAssociationChain env (mkRequest t g gg ggv core dev tmpl)).2) = _
          rw [deviceCallArgs_append, deviceCallArgs_chain]
          rfl
        · show templateCallArgs (lookupTrace t g gg ggv ++
            (runAssociationChain env (mkRequest t g gg ggv core dev tmpl)).2) = _
          rw [templateCallArgs_append, templateCallArgs_chain]
          rfl

/-- Counterexample to claim C7 as stated: the four lookups are not mutually
independent — changing only the result returned by the group-version lookup
changes the argument passed to the core-definition-version lookup, i.e. the
core lookup consumes the group-version lookup's result
(`ggGroupVersion.CoreDefinitionVersionArn`). -/
theorem C7_counterexample : ¬ FourLookupsMutuallyIndependent := by
  intro h
  exact absurd (h baseEnv (fun _ _ => .ok ggvB) taskA) (by decide)

/-- Claim C7 (corrected): only the three lookups started together under
`Promise.all` — core definition version, device definition version, and
configuration template — are mutually independent: the arguments of those
three calls are fully determined by the results of the strictly earlier
sequential lookups (group store, group info, group-version info), so none of
the three consumes another's result; the group's latest-version lookup runs
before them and its result feeds the core and device lookups. -/
theorem C7_three_lookups_independent (env1 env2 : Env) (t : DeviceTaskSummary)
    (h1 : env1.groupsGet = env2.groupsGet)
    (h2 : env1.ggGetGroupInfo = env2.ggGetGroupInfo)
    (h3 : env1.ggGetGroupVersionInfo = env2.ggGetGroupVersionInfo) :
    coreCallArgs (associateDevicesWithGroup env1 t).2 =
      coreCallArgs (associateDevicesWithGroup env2 t).2 ∧
    deviceCallArgs (associateDevicesWithGroup env1 t).2 =
      deviceCallArgs (associateDevicesWithGroup env2 t).2 ∧
    templateCallArgs (associateDevicesWithGroup env1 t).2 =
      templateCallArgs (associateDevicesWithGroup env2 t).2 := by
  cases hv : associateValidate t with
  | some e =>
    rw [associate_validate_error env1 t e hv, associate_validate_error env2 t e hv]
    exact ⟨rfl, rfl, rfl⟩
  | none =>
    cases hg1 : env1.groupsGet t.groupName with
    | error e =>
      have hg2 : env2.groupsGet t.groupName = .error e := by
        rw [← h1]; exact hg1
      rw [associate_groupsGet_error env1 t e hv hg1,
        associate_groupsGet_error env2 t e hv hg2]
      exact ⟨rfl, rfl, rfl⟩
    | ok og =>
      cases og with
      | none =>
        have hg2 : env2.groupsGet t.groupName = .ok none := by
          rw [← h1]; exact hg1
        rw [associate_groupsGet_none env1 t hv hg1,
          associate_groupsGet_none env2 t hv hg2]
        exact ⟨rfl, rfl, rfl⟩
      | some g =>
        have hg2 : env2.groupsGet t.groupName = .ok (some g) := by
          rw [← h1]; exact hg1
        cases hgg1 : env1.ggGetGroupInfo g.id with
        | error e =>
          have hgg2 : env2.ggGetGroupInfo g.id = .error e := by
            rw [← h2]; exact hgg1
          rw [associate_ggInfo_error env1 t g e hv hg1 hgg1,
            associate_ggInfo_error env2 t g e hv hg2 hgg2]
          exact ⟨rfl, rfl, rfl⟩
        | ok gg =>
          have hgg2 : env2.ggGetGroupInfo g.id = .ok gg := by
            rw [← h2]; exact hgg1
          cases hggv1 : env1.ggGetGroupVersionInfo gg.Id gg.LatestVersion with
          | error e =>
            have hggv2 : env2.ggGetGroupVersionInfo gg.Id gg.LatestVersion =
                .error e := by
              rw [← h3]; exact hggv1
            rw [associate_ggVersion_error env1 t g gg e hv hg1 hgg1 hggv1,
              associate_ggVersion_error env2 t g gg e hv hg2 hgg2 hggv2]
            exact ⟨rfl, rfl, rfl⟩
          | ok ggv =>
            have hggv2 : env2.ggGetGroupVersionInfo gg.Id gg.LatestVersion =
                .ok ggv := by
              rw [← h3]; exact hggv1
            obtain ⟨c1, d1, t1⟩ := lookupArgs_stage env1 t g gg ggv hv hg1 hgg1 hggv1
            obtain ⟨c2, d2, t2⟩ := lookupArgs_stage env2 t g gg ggv hv hg2 hgg2 hggv2
            exact ⟨c1.trans c2.symm, d1.trans d2.symm, t1.trans t2.symm⟩

/-- Witness for the amended C7: two environments agreeing on the three
sequential lookups but differing in the chain and terminal persistence
behaviour make the three concurrent calls with identical arguments. -/
theorem C7_three_lookups_independent_witness :
    coreCallArgs (associateDevicesWithGroup baseEnv taskA).2 =
      coreCallArgs (associateDevicesWithGroup sgFailEnv taskA).2 ∧
    deviceCallArgs (associateDevicesWithGroup baseEnv taskA).2 =
      deviceCallArgs (associateDevicesWithGroup sgFailEnv taskA).2 ∧
    templateCallArgs (associateDevicesWithGroup baseEnv taskA).2 =
      templateCallArgs (associateDevicesWithGroup sgFailEnv taskA).2 :=
  C7_three_lookups_independent baseEnv sgFailEnv taskA rfl rfl rfl
